import Mathlib

/-!
# Verification of the triboar-backend reconciliation core

Shallow embedding of the subscription/grace-period reconciliation engine:
the Stripe webhook ingestion route (`src/api/routes/webhooks.js`), the
subscription service (`src/services/subscriptionService.js`), the grace
period service (`src/services/gracePeriodService.js`), the daily sweep
(`src/services/syncService.js`), the webhook idempotency helpers
(`src/api/middleware/webhookAuth.js`) and the Discord role retry wrapper
(`withRetry` in `src/services/discordRoleService.js`).

Modelling conventions:
* The database is a record of logical relations (lists of rows).  Each SQL
  statement is modelled by its effect on those relations: a SELECT is a
  lookup, an UPDATE maps the matching rows, an INSERT appends a row.  A
  statement that can never succeed against the repository's schema is
  modelled by its failure path: the ledger insert of `markWebhookProcessed`
  omits the NOT NULL `event_type` column of `processed_webhooks`
  (migrate.js) and therefore always fails and is swallowed.  The remaining
  constraints, defaults and triggers are not represented.
* Timestamps are integers (epoch seconds); the JavaScript "+ 7 days" becomes
  `+ 7 * 86400`.
* External I/O (the Stripe client, the Discord role client, the RoleBot
  notification webhooks) is modelled at the call boundary: the environment
  `Env` supplies the responses of the Stripe client and the outcome of a
  Discord role mutation; a role mutation is recorded as a `RoleCall` row
  (mirroring the `discord_role_changes` audit relation).
* Every handler in `webhooks.js` wraps its body in try/catch and does not
  rethrow, so a handler is a total function on the database; an inner
  exception that skips the rest of a handler is modelled by the
  corresponding early return.
-/

namespace Triboar

/-! ## Retrying role-sync adapter (`withRetry` in discordRoleService.js) -/

/-- Outcome of one attempt of the wrapped external Discord call:
`ok` means the call returned; otherwise `status` is
`err.response?.status` (none when there was no HTTP response) and
`retryAfter` is the parsed `retry-after` response header in seconds,
when present. -/
structure CallOutcome where
  ok : Bool
  status : Option Nat
  retryAfter : Option Nat
deriving DecidableEq

/-- The retry condition of `withRetry`:
`err.response?.status === 429 || err.response?.status >= 500`. -/
def shouldRetry (o : CallOutcome) : Bool :=
  match o.status with
  | some s => s == 429 || decide (500 ≤ s)
  | none => false

/-- The backoff delay `retryAfter ? parseInt(retryAfter) * 1000 :
baseDelay * Math.pow(2, attempt)` (milliseconds). -/
def retryDelay (baseDelay : Nat) (attempt : Nat) (o : CallOutcome) : Nat :=
  match o.retryAfter with
  | some h => h * 1000
  | none => baseDelay * 2 ^ attempt

/-- Trace of one `withRetry` execution: how many attempts of the wrapped
call were performed, the sleeps between consecutive attempts, and whether
the call eventually returned instead of throwing. -/
structure RetryTrace where
  attempts : Nat
  delays : List Nat
  ok : Bool
deriving DecidableEq

/-- The loop of `withRetry`, indexed by the current attempt number and the
number of loop iterations that remain (`remaining = maxRetries - attempt`);
`remaining = 1` is the `attempt === maxRetries - 1` case, which rethrows
instead of sleeping. -/
def withRetryGo (outcomes : Nat → CallOutcome) (baseDelay : Nat) :
    Nat → Nat → RetryTrace
  | _, 0 => ⟨0, [], false⟩
  | attempt, remaining + 1 =>
    let o := outcomes attempt
    if o.ok then ⟨1, [], true⟩
    else if !shouldRetry o || remaining == 0 then ⟨1, [], false⟩
    else
      let rest := withRetryGo outcomes baseDelay (attempt + 1) remaining
      ⟨rest.attempts + 1, retryDelay baseDelay attempt o :: rest.delays, rest.ok⟩

/-- `withRetry(fn, maxRetries, baseDelay)` where `outcomes k` is the result
of the `k`-th evaluation of `fn` (0-indexed). -/
def withRetry (outcomes : Nat → CallOutcome) (maxRetries baseDelay : Nat) :
    RetryTrace :=
  withRetryGo outcomes baseDelay 0 maxRetries

/-- The role-mutation wrappers `addRoleToMember` / `removeRoleFromMember`
call `withRetry(fn)` with the default budget `maxRetries = 3`,
`baseDelay = 1000`. -/
def roleMutationRetry (outcomes : Nat → CallOutcome) : RetryTrace :=
  withRetry outcomes 3 1000

/-! ## Data model (logical relations of the schema) -/

/-- A `users` row (the columns the core reads or writes). -/
structure User where
  id : Nat
  discordId : String
  stripeCustomerId : Option String
  tier : String
  subscriptionEndDate : Option Int
  gracePeriodEndDate : Option Int
deriving DecidableEq

/-- A parsed Stripe subscription object as the handlers consume it
(`event.data.object` or a Stripe client response). -/
structure StripeSub where
  id : String
  customer : String
  status : String
  currentPeriodStart : Int
  currentPeriodEnd : Int
  trialStart : Option Int
  trialEnd : Option Int
  cancelAt : Option Int
  cancelAtPeriodEnd : Bool
  canceledAt : Option Int
  priceId : Option String
deriving DecidableEq

/-- A `subscriptions` row. -/
structure SubscriptionRow where
  userId : Option Nat
  stripeSubscriptionId : String
  stripePriceId : Option String
  status : String
  currentPeriodStart : Int
  currentPeriodEnd : Int
  trialStart : Option Int
  trialEnd : Option Int
  cancelAt : Option Int
  cancelAtPeriodEnd : Bool
  canceledAt : Option Int
deriving DecidableEq

/-- A `grace_period` row. -/
structure GraceRow where
  userId : Nat
  discordId : String
  gracePeriodEndsAt : Int
  dmEnabled : Bool
deriving DecidableEq

/-- An `audit_logs` row (the columns the modelled writers set). -/
structure AuditRow where
  userId : Option Nat
  eventType : String
  stripeEventId : Option String
  status : String
deriving DecidableEq

/-- A recorded Discord role mutation attempt (the boundary model of
`discordRoleService.syncRoles`, mirroring `discord_role_changes`). -/
structure RoleCall where
  discordId : String
  shouldHavePaid : Bool
  ok : Bool
deriving DecidableEq

/-- The persistent state: the logical relations of the database. -/
structure DB where
  users : List User
  subscriptions : List SubscriptionRow
  gracePeriod : List GraceRow
  processedWebhooks : List String
  auditLogs : List AuditRow
  roleCalls : List RoleCall
deriving DecidableEq

/-- External collaborators: the wall clock, the Stripe client used by the
handlers, and the outcome of a Discord role mutation. -/
structure Env where
  now : Int
  listSubscriptionsForCustomer : String → List StripeSub
  getSubscription : String → Option StripeSub
  roleSyncOk : Bool

/-! ## Store helpers -/

/-- `SELECT * FROM users WHERE id = $1` (first row). -/
def findUserById (db : DB) (uid : Nat) : Option User :=
  db.users.find? (fun u => u.id == uid)

/-- `SELECT * FROM users WHERE stripe_customer_id = $1` (first row). -/
def findUserByCustomer (db : DB) (customerId : String) : Option User :=
  db.users.find? (fun u => u.stripeCustomerId == some customerId)

/-- `UPDATE users SET ... WHERE id = $1`, with `f` the per-row change. -/
def updateUser (db : DB) (uid : Nat) (f : User → User) : DB :=
  { db with users := db.users.map (fun u => if u.id == uid then f u else u) }

/-- `auditLogService.logEvent` (an `audit_logs` insert; its own catch
swallows failures). -/
def logEvent (db : DB) (uid : Option Nat) (eventType : String)
    (status : String) : DB :=
  { db with auditLogs := db.auditLogs ++ [⟨uid, eventType, none, status⟩] }

/-- `auditLogService.logStripeEvent`: inserts an `audit_logs` row with
event type `stripe.<eventType>` and status success. -/
def logStripeEvent (db : DB) (stripeEventId : String) (eventType : String)
    (uid : Option Nat) : DB :=
  { db with auditLogs :=
      db.auditLogs ++ [⟨uid, "stripe." ++ eventType, some stripeEventId, "success"⟩] }

/-- Boundary model of `discordRoleService.syncRoles(discordId,
shouldHavePaid)`: the attempted mutation is recorded with its outcome
(`env.roleSyncOk`); when the outcome is a failure the service throws, and
every call site in the modelled code catches and continues. -/
def syncRoles (env : Env) (db : DB) (discordId : String)
    (shouldHavePaid : Bool) : DB :=
  { db with roleCalls := db.roleCalls ++ [⟨discordId, shouldHavePaid, env.roleSyncOk⟩] }

/-- Whether the ledger insert of `markWebhookProcessed` can succeed
against the repository's schema.  The statement is
`INSERT INTO processed_webhooks (stripe_event_id) VALUES ($1)`, which
omits `event_type`; the base schema (migrate.js) declares
`event_type VARCHAR(255) NOT NULL` with no default, and no migration
relaxes it, so the insert always fails with a NOT NULL violation. -/
def processedWebhooksInsertOk : Bool := false

/-- `markWebhookProcessed` in webhookAuth.js: attempts the ledger insert
inside a try/catch that logs and swallows failures.  Since the insert
always violates the NOT NULL constraint on `event_type` (see
`processedWebhooksInsertOk`), no `processed_webhooks` row is ever written
and the store is returned unchanged. -/
def markWebhookProcessed (eventId : String) (db : DB) : DB :=
  if processedWebhooksInsertOk then
    { db with processedWebhooks := eventId :: db.processedWebhooks }
  else db

/-! ## gracePeriodService.js -/

/-- `GRACE_PERIOD_DAYS = 7`, in seconds. -/
def gracePeriodSeconds : Int := 7 * 86400

/-- `moveToGracePeriod(userId, discordId)`: upserts the `grace_period` row
keyed by `user_id` with `grace_period_ends_at = now + 7 days`; on conflict
only `grace_period_ends_at` is updated. -/
def moveToGracePeriod (now : Int) (db : DB) (uid : Nat) (discordId : String) : DB :=
  let endsAt := now + gracePeriodSeconds
  if db.gracePeriod.any (fun g => g.userId == uid) then
    { db with gracePeriod := db.gracePeriod.map (fun g =>
        if g.userId == uid then { g with gracePeriodEndsAt := endsAt } else g) }
  else
    { db with gracePeriod := db.gracePeriod ++ [⟨uid, discordId, endsAt, true⟩] }

/-- `removeFromGracePeriod(userId, discordId)`:
`DELETE FROM grace_period WHERE user_id = $1`. -/
def removeFromGracePeriod (db : DB) (uid : Nat) : DB :=
  { db with gracePeriod := db.gracePeriod.filter (fun g => !(g.userId == uid)) }

/-! ## subscriptionService.js -/

/-- The `UPDATE subscriptions SET ...` branch of
`createOrUpdateSubscription`: refreshes every payload column of the
existing row; `user_id` and `stripe_price_id` are not touched. -/
def refreshSubscriptionRow (r : SubscriptionRow) (s : StripeSub) : SubscriptionRow :=
  { r with
    status := s.status
    currentPeriodStart := s.currentPeriodStart
    currentPeriodEnd := s.currentPeriodEnd
    trialStart := s.trialStart
    trialEnd := s.trialEnd
    cancelAt := s.cancelAt
    cancelAtPeriodEnd := s.cancelAtPeriodEnd
    canceledAt := s.canceledAt }

/-- `createOrUpdateSubscription(userId, stripeSubscription)`: if a row with
this `stripe_subscription_id` exists it is updated, otherwise a new row is
inserted with the given `user_id` (null when the caller passes null, as
`handleSubscriptionActive`/`Canceled`/`PastDue` do). -/
def createOrUpdateSubscription (userId : Option Nat) (s : StripeSub) (db : DB) : DB :=
  if db.subscriptions.any (fun r => r.stripeSubscriptionId == s.id) then
    { db with subscriptions := db.subscriptions.map (fun r =>
        if r.stripeSubscriptionId == s.id then refreshSubscriptionRow r s else r) }
  else
    { db with subscriptions := db.subscriptions ++
        [⟨userId, s.id, s.priceId, s.status, s.currentPeriodStart,
          s.currentPeriodEnd, s.trialStart, s.trialEnd, s.cancelAt,
          s.cancelAtPeriodEnd, s.canceledAt⟩] }

/-- The user lookup shared by `handleSubscriptionActive` / `Canceled` /
`PastDue`: `SELECT u.* FROM users u JOIN subscriptions s ON u.id =
s.user_id WHERE s.stripe_subscription_id = $1` (first row). -/
def findUserBySubscriptionJoin (db : DB) (subId : String) : Option User :=
  match db.subscriptions.find? (fun r => r.stripeSubscriptionId == subId) with
  | none => none
  | some r =>
    match r.userId with
    | none => none
    | some uid => findUserById db uid

/-- `handleSubscriptionActive(stripeSubscription)`.  Returns the database
and whether the function returned normally (`false` models the rethrown
"User not found for subscription" error).  The Discord role sync, the
grace-period removal and the RoleBot notifications are each wrapped in
try/catch in the source and never abort the handler. -/
def handleSubscriptionActive (env : Env) (s : StripeSub) (db : DB) : DB × Bool :=
  let db := createOrUpdateSubscription none s db
  match findUserBySubscriptionJoin db s.id with
  | none => (db, false)
  | some user =>
    let db := updateUser db user.id (fun u => { u with tier := "paid" })
    let db := syncRoles env db user.discordId true
    let db := removeFromGracePeriod db user.id
    let db := logEvent db (some user.id) "subscription.activated" "success"
    (db, true)

/-- `handleSubscriptionCanceled(stripeSubscription)`: refreshes the
subscription row and moves the user to the grace period; no role is
revoked and the user's tier is not written. -/
def handleSubscriptionCanceled (env : Env) (s : StripeSub) (db : DB) : DB × Bool :=
  let db := createOrUpdateSubscription none s db
  match findUserBySubscriptionJoin db s.id with
  | none => (db, false)
  | some user =>
    let db := moveToGracePeriod env.now db user.id user.discordId
    let db := logEvent db (some user.id) "subscription.canceled" "success"
    (db, true)

/-- `handleSubscriptionPastDue(stripeSubscription)`: refreshes the
subscription row and records an audit event; tier and roles are kept. -/
def handleSubscriptionPastDue (s : StripeSub) (db : DB) : DB × Bool :=
  let db := createOrUpdateSubscription none s db
  match findUserBySubscriptionJoin db s.id with
  | none => (db, false)
  | some user =>
    let db := logEvent db (some user.id) "subscription.past_due" "success"
    (db, true)

/-! ## Webhook event handlers (webhooks.js) -/

/-- `handleCheckoutSessionCompleted`: resolves the user (by
`metadata.user_id` when present, else by Stripe customer id), links the
customer id, reads the customer's subscriptions from Stripe, upserts the
first one, sets the tier to paid and grants the role.  Every early return
models the corresponding `return` in the source; the handler's catch
swallows all errors. -/
def handleCheckoutSessionCompleted (env : Env) (eventId : String)
    (customer : String) (metadataUserId : Option Nat) (db : DB) : DB :=
  let user :=
    match metadataUserId with
    | some uid => findUserById db uid
    | none => findUserByCustomer db customer
  match user with
  | none => db
  | some user =>
    let db := updateUser db user.id (fun u => { u with stripeCustomerId := some customer })
    match env.listSubscriptionsForCustomer customer with
    | [] => db
    | s :: _ =>
      let db := createOrUpdateSubscription (some user.id) s db
      let db := updateUser db user.id (fun u => { u with tier := "paid" })
      let db := syncRoles env db user.discordId true
      logStripeEvent db eventId "checkout.session.completed" (some user.id)

/-- `handleSubscriptionCreated`: upserts the subscription for the user
found by customer id and, when the status is active or trialing, runs
`handleSubscriptionActive`; a failure there skips the trailing audit
insert (the handler's catch swallows it). -/
def handleSubscriptionCreated (env : Env) (eventId : String) (s : StripeSub)
    (db : DB) : DB :=
  match findUserByCustomer db s.customer with
  | none => db
  | some user =>
    let db := createOrUpdateSubscription (some user.id) s db
    if s.status == "active" || s.status == "trialing" then
      let res := handleSubscriptionActive env s db
      if res.2 then logStripeEvent res.1 eventId "subscription.created" (some user.id)
      else res.1
    else
      logStripeEvent db eventId "subscription.created" (some user.id)

/-- `handleSubscriptionUpdated`: upserts the subscription; only when the
payload carries `previous_attributes.status` and the status changed does it
delegate to `handleSubscriptionActive` (new status active) or
`handleSubscriptionPastDue` (new status past_due); any other new status
changes nothing else. -/
def handleSubscriptionUpdated (env : Env) (eventId : String) (s : StripeSub)
    (previousStatus : Option String) (db : DB) : DB :=
  match findUserByCustomer db s.customer with
  | none => db
  | some user =>
    let db := createOrUpdateSubscription (some user.id) s db
    let res : DB × Bool :=
      match previousStatus with
      | some oldStatus =>
        if oldStatus != s.status then
          if s.status == "active" then handleSubscriptionActive env s db
          else if s.status == "past_due" then handleSubscriptionPastDue s db
          else (db, true)
        else (db, true)
      | none => (db, true)
    if res.2 then logStripeEvent res.1 eventId "subscription.updated" (some user.id)
    else res.1

/-- `handleSubscriptionDeleted`: upserts the subscription and runs
`handleSubscriptionCanceled`; a failure there skips the trailing audit
insert. -/
def handleSubscriptionDeleted (env : Env) (eventId : String) (s : StripeSub)
    (db : DB) : DB :=
  match findUserByCustomer db s.customer with
  | none => db
  | some user =>
    let db := createOrUpdateSubscription (some user.id) s db
    let res := handleSubscriptionCanceled env s db
    if res.2 then logStripeEvent res.1 eventId "subscription.deleted" (some user.id)
    else res.1

/-- `handleInvoicePaymentSucceeded`: when a user matches the invoice's
customer and the invoice carries a subscription id, fetches the
subscription from Stripe, upserts it and re-issues the role grant; the
user's tier is not written on this path. -/
def handleInvoicePaymentSucceeded (env : Env) (eventId : String)
    (customer : String) (invoiceSubscription : Option String) (db : DB) : DB :=
  match findUserByCustomer db customer with
  | none => db
  | some user =>
    match invoiceSubscription with
    | none => logStripeEvent db eventId "invoice.payment_succeeded" (some user.id)
    | some subId =>
      match env.getSubscription subId with
      | none => db
      | some s =>
        let db := createOrUpdateSubscription (some user.id) s db
        let db := syncRoles env db user.discordId true
        logStripeEvent db eventId "invoice.payment_succeeded" (some user.id)

/-- `handleInvoicePaymentFailed`: audit only; roles and tier are kept
(Stripe dunning handles the retries). -/
def handleInvoicePaymentFailed (eventId : String) (customer : String)
    (db : DB) : DB :=
  match findUserByCustomer db customer with
  | none => db
  | some user => logStripeEvent db eventId "invoice.payment_failed" (some user.id)

/-- `handleTrialWillEnd`: audit only. -/
def handleTrialWillEnd (eventId : String) (s : StripeSub) (db : DB) : DB :=
  match findUserByCustomer db s.customer with
  | none => db
  | some user => logStripeEvent db eventId "subscription.trial_will_end" (some user.id)

/-! ## Webhook ingestion gate (the route in webhooks.js) -/

/-- A verified, parsed Stripe event as the route's switch consumes it. -/
inductive StripeEvent where
  | checkoutSessionCompleted (customer : String) (metadataUserId : Option Nat)
  | subscriptionCreated (s : StripeSub)
  | subscriptionUpdated (s : StripeSub) (previousStatus : Option String)
  | subscriptionDeleted (s : StripeSub)
  | invoicePaymentSucceeded (customer : String) (invoiceSubscription : Option String)
  | invoicePaymentFailed (customer : String)
  | trialWillEnd (s : StripeSub)
  | unknownType
deriving DecidableEq

/-- The route's switch on `event.type`. -/
def dispatchEvent (env : Env) (eventId : String) (ev : StripeEvent) (db : DB) : DB :=
  match ev with
  | .checkoutSessionCompleted customer metadataUserId =>
    handleCheckoutSessionCompleted env eventId customer metadataUserId db
  | .subscriptionCreated s => handleSubscriptionCreated env eventId s db
  | .subscriptionUpdated s previousStatus =>
    handleSubscriptionUpdated env eventId s previousStatus db
  | .subscriptionDeleted s => handleSubscriptionDeleted env eventId s db
  | .invoicePaymentSucceeded customer sub =>
    handleInvoicePaymentSucceeded env eventId customer sub db
  | .invoicePaymentFailed customer => handleInvoicePaymentFailed eventId customer db
  | .trialWillEnd s => handleTrialWillEnd eventId s db
  | .unknownType => db

/-- `POST /webhooks/stripe` after signature verification: returns the new
database and whether the response was the `alreadyProcessed` acknowledgment.
When the event id is not in `processed_webhooks` the handler runs and then
`markWebhookProcessed` is called, unconditionally; its insert never
succeeds, so the ledger stays as it was. -/
def ingest (env : Env) (eventId : String) (ev : StripeEvent) (db : DB) :
    DB × Bool :=
  if db.processedWebhooks.contains eventId then
    (db, true)
  else
    let db := dispatchEvent env eventId ev db
    (markWebhookProcessed eventId db, false)

/-! ## Daily reconciliation sweep (syncService.js) -/

/-- `gracePeriodService.startGracePeriod` as referenced by
`performDailySync`.  gracePeriodService.js exports `moveToGracePeriod`,
`removeFromGracePeriod`, `expireGracePeriod`, `getGracePeriodUsers`,
`getExpiredGracePeriodUsers`, `setDMPreference`, `isUserInGracePeriod` and
`getGracePeriodStatus` — there is no `startGracePeriod` export, so the
property access yields `undefined` and the call raises a TypeError, which
the sweep's per-row catch swallows. -/
def startGracePeriodExport : Option (Int → Nat → String → DB → DB) := none

/-- Step 1 selection: `SELECT ... FROM users WHERE tier = 'paid' AND
subscription_end_date <= NOW() LIMIT 1000` (a SQL NULL date matches no
comparison). -/
def sweepExpiredSelection (now : Int) (db : DB) : List User :=
  (db.users.filter (fun u =>
    u.tier == "paid" &&
      match u.subscriptionEndDate with
      | some d => decide (d ≤ now)
      | none => false)).take 1000

/-- Step 2 selection: `SELECT ... FROM users WHERE tier = 'grace' AND
grace_period_end_date <= NOW() LIMIT 1000`. -/
def sweepGraceExpiredSelection (now : Int) (db : DB) : List User :=
  (db.users.filter (fun u =>
    u.tier == "grace" &&
      match u.gracePeriodEndDate with
      | some d => decide (d ≤ now)
      | none => false)).take 1000

/-- `performDailySync`: step 1 iterates the expired paid users, calling
`gracePeriodService.startGracePeriod` per row (see
`startGracePeriodExport`); step 2 iterates the expired grace users and runs
`UPDATE users SET tier = 'free', grace_period_end_date = NULL WHERE id =
$1` per row.  Neither step touches `grace_period`, `subscriptions` or the
role service. -/
def performDailySync (now : Int) (db : DB) : DB :=
  let db1 := (sweepExpiredSelection now db).foldl (fun acc u =>
    match startGracePeriodExport with
    | none => acc
    | some f => f now u.id u.discordId acc) db
  (sweepGraceExpiredSelection now db1).foldl (fun acc u =>
    updateUser acc u.id (fun v =>
      { v with tier := "free", gracePeriodEndDate := none })) db1

/-- A concrete execution used to witness `C9_role_retry_policy`: a 429
without hint, then a 503 with a 5-second hint, then success. -/
def exC9 : Nat → CallOutcome := fun k =>
  if k == 0 then ⟨false, some 429, none⟩
  else if k == 1 then ⟨false, some 503, some 5⟩
  else ⟨true, none, none⟩

/-! ## Stated invariants -/

/-- The tier enum of the data model: one of free, paid, grace. -/
def validTier (t : String) : Prop :=
  t = "free" ∨ t = "paid" ∨ t = "grace"

/-- Every member's tier is a valid enum value. -/
def tierValid (db : DB) : Prop :=
  ∀ u ∈ db.users, validTier u.tier

/-- The full claimed invariant: valid tiers, and a grace entry exists for
a member exactly when the member's tier is grace. -/
def graceInvariant (db : DB) : Prop :=
  ∀ u ∈ db.users, validTier u.tier ∧
    ((db.gracePeriod.any (fun g => g.userId == u.id)) = true ↔ u.tier = "grace")

/-! ## Lemmas about the retry adapter -/

theorem shouldRetry_eq_true_iff (o : CallOutcome) :
    shouldRetry o = true ↔
      (o.status = some 429 ∨ ∃ s, o.status = some s ∧ 500 ≤ s) := by
  unfold shouldRetry
  cases h : o.status with
  | none => simp
  | some s =>
    simp only [Bool.or_eq_true, beq_iff_eq, decide_eq_true_eq, Option.some.injEq]
    constructor
    · rintro (rfl | hs)
      · exact Or.inl rfl
      · exact Or.inr ⟨s, rfl, hs⟩
    · rintro (rfl | ⟨t, ht, hts⟩)
      · exact Or.inl rfl
      · cases ht; exact Or.inr hts

theorem withRetryGo_attempts_le (outcomes : Nat → CallOutcome) (baseDelay : Nat) :
    ∀ r a, (withRetryGo outcomes baseDelay a r).attempts ≤ r := by
  intro r
  induction r with
  | zero => intro a; simp [withRetryGo]
  | succ r ih =>
    intro a
    simp only [withRetryGo]
    split
    · simp
    · split
      · simp
      · simpa using Nat.succ_le_succ (ih (a + 1))

theorem withRetryGo_attempts_pos (outcomes : Nat → CallOutcome) (baseDelay : Nat) :
    ∀ r a, 1 ≤ r → 1 ≤ (withRetryGo outcomes baseDelay a r).attempts := by
  intro r
  cases r with
  | zero => intro a h; omega
  | succ r =>
    intro a _
    simp only [withRetryGo]
    split
    · simp
    · split
      · simp
      · simp

theorem withRetryGo_delays_length (outcomes : Nat → CallOutcome) (baseDelay : Nat) :
    ∀ r a, (withRetryGo outcomes baseDelay a r).delays.length + 1 =
      max 1 (withRetryGo outcomes baseDelay a r).attempts := by
  intro r
  induction r with
  | zero => intro a; simp [withRetryGo]
  | succ r ih =>
    intro a
    simp only [withRetryGo]
    split
    · simp
    · split
      · simp
      · rename_i hok hretry
        have hr : 1 ≤ r := by
          rcases Nat.eq_zero_or_pos r with h0 | h1
          · subst h0; simp at hretry
          · exact h1
        have hpos := withRetryGo_attempts_pos outcomes baseDelay r (a + 1) hr
        have := ih (a + 1)
        simp only [List.length_cons]
        omega

theorem withRetryGo_retry_spec (outcomes : Nat → CallOutcome) (baseDelay : Nat) :
    ∀ r a k, k + 1 < (withRetryGo outcomes baseDelay a r).attempts →
      ((outcomes (a + k)).ok = false ∧
       shouldRetry (outcomes (a + k)) = true ∧
       (withRetryGo outcomes baseDelay a r).delays.get? k =
         some (retryDelay baseDelay (a + k) (outcomes (a + k)))) := by
  intro r
  induction r with
  | zero => intro a k hk; simp [withRetryGo] at hk
  | succ r ih =>
    intro a k hk
    by_cases hok : (outcomes a).ok = true
    · simp [withRetryGo, hok] at hk
    · by_cases hstop : (!shouldRetry (outcomes a) || r == 0) = true
      · simp only [Bool.not_eq_true] at hok
        simp [withRetryGo, hok, hstop] at hk
      · simp only [Bool.not_eq_true] at hok
        have hparts := Bool.or_eq_false_iff.mp (Bool.not_eq_true _ ▸ hstop)
        have hsr : shouldRetry (outcomes a) = true := by
          have := hparts.1
          simpa using this
        have hr0 : r ≠ 0 := by
          have := hparts.2
          simpa using this
        simp only [withRetryGo, hok, hstop, if_false, Bool.false_eq_true] at hk ⊢
        cases k with
        | zero =>
          refine ⟨by simpa using hok, by simpa [Nat.add_zero] using hsr, ?_⟩
          simp
        | succ k =>
          have hk' : k + 1 < (withRetryGo outcomes baseDelay (a + 1) r).attempts := by
            omega
          have hrec := ih (a + 1) k hk'
          have harith : a + 1 + k = a + (k + 1) := by omega
          rw [harith] at hrec
          exact ⟨hrec.1, hrec.2.1, by simpa using hrec.2.2⟩

/-- C9: each role mutation (`addRoleToMember` / `removeRoleFromMember`,
which call `withRetry` with the default budget) performs at most 3
attempts of the underlying external call; an attempt `k+1` is made only
when attempt `k` failed with a rate-limit (429) or a status of at least
500 (the 5xx class); and the sleep before attempt `k+1` is the
retry-after hint times 1000 when present, otherwise the base delay of
1000 ms doubled per prior attempt (`1000 * 2 ^ k`). -/
theorem C9_role_retry_policy (outcomes : Nat → CallOutcome) :
    (roleMutationRetry outcomes).attempts ≤ 3 ∧
    (roleMutationRetry outcomes).delays.length + 1 =
      (roleMutationRetry outcomes).attempts ∧
    (∀ k, k + 1 < (roleMutationRetry outcomes).attempts →
      ((outcomes k).ok = false ∧
       ((outcomes k).status = some 429 ∨
        ∃ s, (outcomes k).status = some s ∧ 500 ≤ s) ∧
       (roleMutationRetry outcomes).delays.get? k =
         some (match (outcomes k).retryAfter with
               | some h => h * 1000
               | none => 1000 * 2 ^ k))) := by
  have hle := withRetryGo_attempts_le outcomes 1000 3 0
  have hpos := withRetryGo_attempts_pos outcomes 1000 3 0 (by omega)
  have hlen := withRetryGo_delays_length outcomes 1000 3 0
  refine ⟨hle, ?_, ?_⟩
  · unfold roleMutationRetry withRetry
    omega
  · intro k hk
    have := withRetryGo_retry_spec outcomes 1000 3 0 k hk
    simp only [Nat.zero_add] at this
    refine ⟨this.1, (shouldRetry_eq_true_iff _).mp this.2.1, ?_⟩
    have hd := this.2.2
    unfold roleMutationRetry withRetry
    rw [hd]
    unfold retryDelay
    rfl

/-- Witness for C9 at a concrete outcome sequence. -/
theorem C9_witness :
    0 + 1 < (roleMutationRetry exC9).attempts ∧
    ((exC9 0).ok = false ∧
     ((exC9 0).status = some 429 ∨ ∃ s, (exC9 0).status = some s ∧ 500 ≤ s) ∧
     (roleMutationRetry exC9).delays.get? 0 =
       some (match (exC9 0).retryAfter with
             | some h => h * 1000
             | none => 1000 * 2 ^ 0)) :=
  ⟨by decide, (C9_role_retry_policy exC9).2.2 0 (by decide)⟩

/-! ## Frame lemmas: which relations each store helper leaves unchanged -/

section Frames

variable (db : DB) (uid : Nat) (f : User → User) (eid ty st : String)
variable (uidOpt : Option Nat) (env : Env) (did : String) (b : Bool)
variable (now : Int) (s : StripeSub)

@[simp] theorem updateUser_subscriptions :
    (updateUser db uid f).subscriptions = db.subscriptions := rfl

@[simp] theorem updateUser_gracePeriod :
    (updateUser db uid f).gracePeriod = db.gracePeriod := rfl

@[simp] theorem updateUser_processedWebhooks :
    (updateUser db uid f).processedWebhooks = db.processedWebhooks := rfl

@[simp] theorem updateUser_roleCalls :
    (updateUser db uid f).roleCalls = db.roleCalls := rfl

@[simp] theorem logEvent_users : (logEvent db uidOpt ty st).users = db.users := rfl

@[simp] theorem logEvent_subscriptions :
    (logEvent db uidOpt ty st).subscriptions = db.subscriptions := rfl

@[simp] theorem logEvent_gracePeriod :
    (logEvent db uidOpt ty st).gracePeriod = db.gracePeriod := rfl

@[simp] theorem logEvent_processedWebhooks :
    (logEvent db uidOpt ty st).processedWebhooks = db.processedWebhooks := rfl

@[simp] theorem logEvent_roleCalls :
    (logEvent db uidOpt ty st).roleCalls = db.roleCalls := rfl

@[simp] theorem logStripeEvent_users :
    (logStripeEvent db eid ty uidOpt).users = db.users := rfl

@[simp] theorem logStripeEvent_subscriptions :
    (logStripeEvent db eid ty uidOpt).subscriptions = db.subscriptions := rfl

@[simp] theorem logStripeEvent_gracePeriod :
    (logStripeEvent db eid ty uidOpt).gracePeriod = db.gracePeriod := rfl

@[simp] theorem logStripeEvent_processedWebhooks :
    (logStripeEvent db eid ty uidOpt).processedWebhooks = db.processedWebhooks := rfl

@[simp] theorem logStripeEvent_roleCalls :
    (logStripeEvent db eid ty uidOpt).roleCalls = db.roleCalls := rfl

@[simp] theorem syncRoles_users : (syncRoles env db did b).users = db.users := rfl

@[simp] theorem syncRoles_subscriptions :
    (syncRoles env db did b).subscriptions = db.subscriptions := rfl

@[simp] theorem syncRoles_gracePeriod :
    (syncRoles env db did b).gracePeriod = db.gracePeriod := rfl

@[simp] theorem syncRoles_processedWebhooks :
    (syncRoles env db did b).processedWebhooks = db.processedWebhooks := rfl

@[simp] theorem markWebhookProcessed_users :
    (markWebhookProcessed eid db).users = db.users := rfl

@[simp] theorem markWebhookProcessed_subscriptions :
    (markWebhookProcessed eid db).subscriptions = db.subscriptions := rfl

@[simp] theorem markWebhookProcessed_gracePeriod :
    (markWebhookProcessed eid db).gracePeriod = db.gracePeriod := rfl

@[simp] theorem markWebhookProcessed_roleCalls :
    (markWebhookProcessed eid db).roleCalls = db.roleCalls := rfl

@[simp] theorem moveToGracePeriod_users :
    (moveToGracePeriod now db uid did).users = db.users := by
  unfold moveToGracePeriod; split <;> rfl

@[simp] theorem moveToGracePeriod_subscriptions :
    (moveToGracePeriod now db uid did).subscriptions = db.subscriptions := by
  unfold moveToGracePeriod; split <;> rfl

@[simp] theorem moveToGracePeriod_processedWebhooks :
    (moveToGracePeriod now db uid did).processedWebhooks = db.processedWebhooks := by
  unfold moveToGracePeriod; split <;> rfl

@[simp] theorem moveToGracePeriod_roleCalls :
    (moveToGracePeriod now db uid did).roleCalls = db.roleCalls := by
  unfold moveToGracePeriod; split <;> rfl

@[simp] theorem removeFromGracePeriod_users :
    (removeFromGracePeriod db uid).users = db.users := rfl

@[simp] theorem removeFromGracePeriod_subscriptions :
    (removeFromGracePeriod db uid).subscriptions = db.subscriptions := rfl

@[simp] theorem removeFromGracePeriod_processedWebhooks :
    (removeFromGracePeriod db uid).processedWebhooks = db.processedWebhooks := rfl

@[simp] theorem removeFromGracePeriod_roleCalls :
    (removeFromGracePeriod db uid).roleCalls = db.roleCalls := rfl

@[simp] theorem createOrUpdateSubscription_users :
    (createOrUpdateSubscription uidOpt s db).users = db.users := by
  unfold createOrUpdateSubscription; split <;> rfl

@[simp] theorem createOrUpdateSubscription_gracePeriod :
    (createOrUpdateSubscription uidOpt s db).gracePeriod = db.gracePeriod := by
  unfold createOrUpdateSubscription; split <;> rfl

@[simp] theorem createOrUpdateSubscription_processedWebhooks :
    (createOrUpdateSubscription uidOpt s db).processedWebhooks =
      db.processedWebhooks := by
  unfold createOrUpdateSubscription; split <;> rfl

@[simp] theorem createOrUpdateSubscription_roleCalls :
    (createOrUpdateSubscription uidOpt s db).roleCalls = db.roleCalls := by
  unfold createOrUpdateSubscription; split <;> rfl

@[simp] theorem createOrUpdateSubscription_auditLogs :
    (createOrUpdateSubscription uidOpt s db).auditLogs = db.auditLogs := by
  unfold createOrUpdateSubscription; split <;> rfl

end Frames

/-- The event handlers never write `processed_webhooks`; only the route's
final `markWebhookProcessed` call does. -/
theorem dispatchEvent_processedWebhooks (env : Env) (eid : String)
    (ev : StripeEvent) (db : DB) :
    (dispatchEvent env eid ev db).processedWebhooks = db.processedWebhooks := by
  cases ev <;>
    simp only [dispatchEvent, handleCheckoutSessionCompleted,
      handleSubscriptionCreated, handleSubscriptionUpdated,
      handleSubscriptionDeleted, handleInvoicePaymentSucceeded,
      handleInvoicePaymentFailed, handleTrialWillEnd, handleSubscriptionActive,
      handleSubscriptionCanceled, handleSubscriptionPastDue] <;>
    (repeat' split) <;> simp

/-- C1, code bug.  The claim — the ledger entry is written exactly when
the dispatcher succeeds, so a failed event is not marked and its
redelivery is re-processed — is the documented intent (webhookAuth.js:
"Mark as processed after the handler succeeds"; README: duplicate
webhooks are acknowledged without reprocessing).  The shipped code cannot
deliver it: `markWebhookProcessed` is invoked unconditionally after the
switch, and its insert always fails against the schema and is swallowed.
First conjunct: no ingest ever changes `processed_webhooks` — dispatch
success included.  The remaining conjuncts evaluate the failing input: a
`checkout.session.completed` event for a linked member dispatches
successfully (the tier is persisted as paid), yet the ledger stays empty,
and the redelivery of the same event id is re-processed (the role grant
is issued a second time) rather than acknowledged as already processed. -/
theorem C1_ledger_never_written :
    (∀ (env : Env) (eventId : String) (ev : StripeEvent) (db : DB),
      (ingest env eventId ev db).1.processedWebhooks = db.processedWebhooks) ∧
    ((ingest ⟨0, fun _ => [⟨"sub_1", "cus_1", "active", 0, 100, none, none,
          none, false, none, some "price_1"⟩], fun _ => none, true⟩ "evt_1"
        (.checkoutSessionCompleted "cus_1" none)
        ⟨[⟨1, "d1", some "cus_1", "free", none, none⟩], [], [], [], [],
          []⟩).1.users.map User.tier) = ["paid"] ∧
    (ingest ⟨0, fun _ => [⟨"sub_1", "cus_1", "active", 0, 100, none, none,
          none, false, none, some "price_1"⟩], fun _ => none, true⟩ "evt_1"
        (.checkoutSessionCompleted "cus_1" none)
        ⟨[⟨1, "d1", some "cus_1", "free", none, none⟩], [], [], [], [],
          []⟩).1.processedWebhooks = [] ∧
    (ingest ⟨0, fun _ => [⟨"sub_1", "cus_1", "active", 0, 100, none, none,
          none, false, none, some "price_1"⟩], fun _ => none, true⟩ "evt_1"
        (.checkoutSessionCompleted "cus_1" none)
        (ingest ⟨0, fun _ => [⟨"sub_1", "cus_1", "active", 0, 100, none,
            none, none, false, none, some "price_1"⟩], fun _ => none, true⟩
          "evt_1" (.checkoutSessionCompleted "cus_1" none)
          ⟨[⟨1, "d1", some "cus_1", "free", none, none⟩], [], [], [], [],
            []⟩).1).2 = false ∧
    (ingest ⟨0, fun _ => [⟨"sub_1", "cus_1", "active", 0, 100, none, none,
          none, false, none, some "price_1"⟩], fun _ => none, true⟩ "evt_1"
        (.checkoutSessionCompleted "cus_1" none)
        (ingest ⟨0, fun _ => [⟨"sub_1", "cus_1", "active", 0, 100, none,
            none, none, false, none, some "price_1"⟩], fun _ => none, true⟩
          "evt_1" (.checkoutSessionCompleted "cus_1" none)
          ⟨[⟨1, "d1", some "cus_1", "free", none, none⟩], [], [], [], [],
            []⟩).1).1.roleCalls.length = 2 := by
  refine ⟨?_, rfl, rfl, rfl, rfl⟩
  intro env eventId ev db
  unfold ingest
  split
  · rfl
  · simpa [markWebhookProcessed, processedWebhooksInsertOk] using
      dispatchEvent_processedWebhooks env eventId ev db

/-- C6, code bug.  The claim — a second ingest of an already-recorded
event id returns the already-processed acknowledgment without invoking
any handler, leaving the persisted state as after the first — is the
documented intent (README: "Duplicate webhooks return 200 immediately
without reprocessing"), and the route's dedup check is implemented; but
because the ledger insert never succeeds (see `markWebhookProcessed`),
no event id is ever recorded, so a duplicate delivery re-runs the
handler: the second ingest of the same `invoice.payment_succeeded` event
returns a plain acknowledgment (not already-processed) and issues the
role grant and the audit insert a second time. -/
theorem C6_duplicate_delivery_reprocessed :
    (ingest ⟨0, fun _ => [], fun i => if i == "sub_1" then
          some ⟨"sub_1", "cus_1", "active", 0, 100, none, none, none, false,
            none, some "price_1"⟩ else none, true⟩ "evt_a"
        (.invoicePaymentSucceeded "cus_1" (some "sub_1"))
        (ingest ⟨0, fun _ => [], fun i => if i == "sub_1" then
            some ⟨"sub_1", "cus_1", "active", 0, 100, none, none, none,
              false, none, some "price_1"⟩ else none, true⟩ "evt_a"
          (.invoicePaymentSucceeded "cus_1" (some "sub_1"))
          ⟨[⟨1, "d1", some "cus_1", "free", none, none⟩], [], [], [], [],
            []⟩).1).2 = false ∧
    (ingest ⟨0, fun _ => [], fun i => if i == "sub_1" then
          some ⟨"sub_1", "cus_1", "active", 0, 100, none, none, none, false,
            none, some "price_1"⟩ else none, true⟩ "evt_a"
        (.invoicePaymentSucceeded "cus_1" (some "sub_1"))
        (ingest ⟨0, fun _ => [], fun i => if i == "sub_1" then
            some ⟨"sub_1", "cus_1", "active", 0, 100, none, none, none,
              false, none, some "price_1"⟩ else none, true⟩ "evt_a"
          (.invoicePaymentSucceeded "cus_1" (some "sub_1"))
          ⟨[⟨1, "d1", some "cus_1", "free", none, none⟩], [], [], [], [],
            []⟩).1).1.roleCalls =
      [⟨"d1", true, true⟩, ⟨"d1", true, true⟩] ∧
    (ingest ⟨0, fun _ => [], fun i => if i == "sub_1" then
          some ⟨"sub_1", "cus_1", "active", 0, 100, none, none, none, false,
            none, some "price_1"⟩ else none, true⟩ "evt_a"
        (.invoicePaymentSucceeded "cus_1" (some "sub_1"))
        (ingest ⟨0, fun _ => [], fun i => if i == "sub_1" then
            some ⟨"sub_1", "cus_1", "active", 0, 100, none, none, none,
              false, none, some "price_1"⟩ else none, true⟩ "evt_a"
          (.invoicePaymentSucceeded "cus_1" (some "sub_1"))
          ⟨[⟨1, "d1", some "cus_1", "free", none, none⟩], [], [], [], [],
            []⟩).1).1.auditLogs.length = 2 :=
  ⟨rfl, rfl, rfl⟩

/-- C8: when the Discord role sync fails (e.g. retries exhausted) while an
activate intent is processed by `handleSubscriptionActive`, the member's
tier is nonetheless persisted as paid and the handler completes normally:
the failed role attempt is recorded, and the committed tier write is not
rolled back. -/
theorem C8_role_sync_failure_isolated (env : Env) (s : StripeSub) (db : DB)
    (u : User) (hfail : env.roleSyncOk = false)
    (hlookup : findUserBySubscriptionJoin
      (createOrUpdateSubscription none s db) s.id = some u) :
    (handleSubscriptionActive env s db).2 = true ∧
    (∀ v ∈ (handleSubscriptionActive env s db).1.users,
      v.id = u.id → v.tier = "paid") ∧
    (handleSubscriptionActive env s db).1.roleCalls =
      db.roleCalls ++ [⟨u.discordId, true, false⟩] := by
  simp only [handleSubscriptionActive, hlookup]
  refine ⟨trivial, ?_, ?_⟩
  · intro v hv hid
    simp only [logEvent_users, removeFromGracePeriod_users, syncRoles_users,
      updateUser, List.mem_map] at hv
    obtain ⟨w, _, rfl⟩ := hv
    by_cases h : w.id == u.id
    · simp [h]
    · simp only [h, if_false, Bool.false_eq_true] at hid ⊢
      exact absurd (by simpa using hid) (by simpa using h)
  · simp [syncRoles, hfail]

/-- Witness for C8: a free member whose role grant fails still ends up
with tier paid and a completed handler. -/
theorem C8_witness :
    (handleSubscriptionActive ⟨0, fun _ => [], fun _ => none, false⟩
        ⟨"sub_1", "cus_1", "active", 0, 100, none, none, none, false, none,
          some "price_1"⟩
        ⟨[⟨1, "d1", some "cus_1", "free", none, none⟩],
          [⟨some 1, "sub_1", some "price_1", "incomplete", 0, 50, none, none,
            none, false, none⟩], [], [], [], []⟩).2 = true ∧
    (∀ v ∈ (handleSubscriptionActive ⟨0, fun _ => [], fun _ => none, false⟩
        ⟨"sub_1", "cus_1", "active", 0, 100, none, none, none, false, none,
          some "price_1"⟩
        ⟨[⟨1, "d1", some "cus_1", "free", none, none⟩],
          [⟨some 1, "sub_1", some "price_1", "incomplete", 0, 50, none, none,
            none, false, none⟩], [], [], [], []⟩).1.users,
      v.id = 1 → v.tier = "paid") ∧
    (handleSubscriptionActive ⟨0, fun _ => [], fun _ => none, false⟩
        ⟨"sub_1", "cus_1", "active", 0, 100, none, none, none, false, none,
          some "price_1"⟩
        ⟨[⟨1, "d1", some "cus_1", "free", none, none⟩],
          [⟨some 1, "sub_1", some "price_1", "incomplete", 0, 50, none, none,
            none, false, none⟩], [], [], [], []⟩).1.roleCalls =
      [] ++ [⟨"d1", true, false⟩] := by
  have h := C8_role_sync_failure_isolated
    ⟨0, fun _ => [], fun _ => none, false⟩
    ⟨"sub_1", "cus_1", "active", 0, 100, none, none, none, false, none,
      some "price_1"⟩
    ⟨[⟨1, "d1", some "cus_1", "free", none, none⟩],
      [⟨some 1, "sub_1", some "price_1", "incomplete", 0, 50, none, none,
        none, false, none⟩], [], [], [], []⟩
    ⟨1, "d1", some "cus_1", "free", none, none⟩ rfl rfl
  exact h

/-! ## Lookup lemmas for the upsert operations -/

theorem find?_append_of_none {α : Type} (p : α → Bool) :
    ∀ l1 l2 : List α, l1.find? p = none → (l1 ++ l2).find? p = l2.find? p := by
  intro l1
  induction l1 with
  | nil => intro l2 _; rfl
  | cons a t ih =>
    intro l2 h
    by_cases ha : p a
    · rw [List.find?_cons_of_pos _ ha] at h
      exact absurd h (by simp)
    · rw [List.find?_cons_of_neg _ (by simpa using ha)] at h
      rw [List.cons_append, List.find?_cons_of_neg _ (by simpa using ha)]
      exact ih l2 h

theorem find?_map_update {α : Type} (p : α → Bool) (f : α → α)
    (hf : ∀ a, p a = true → p (f a) = true) :
    ∀ l : List α,
      (l.map (fun a => if p a then f a else a)).find? p = (l.find? p).map f := by
  intro l
  induction l with
  | nil => rfl
  | cons a t ih =>
    by_cases ha : p a
    · simp [List.find?_cons, ha, hf a ha]
    · simp [List.find?_cons, ha, ih]

theorem find?_eq_none_of_any_eq_false {α : Type} (p : α → Bool) (l : List α)
    (h : l.any p = false) : l.find? p = none := by
  rw [List.find?_eq_none]
  intro a ha
  have := (List.any_eq_false).mp h a ha
  simpa using this

/-- Refreshing a subscription row keeps its external subscription id. -/
theorem refreshSubscriptionRow_id (r : SubscriptionRow) (s : StripeSub) :
    (refreshSubscriptionRow r s).stripeSubscriptionId = r.stripeSubscriptionId := rfl

/-- Upsert, insert branch: when no row with the payload's subscription id
exists, the upsert appends a fresh row carrying the given user id. -/
theorem createOrUpdateSubscription_insert (uidOpt : Option Nat) (s : StripeSub)
    (db : DB)
    (h : db.subscriptions.any (fun r => r.stripeSubscriptionId == s.id) = false) :
    (createOrUpdateSubscription uidOpt s db).subscriptions.find?
        (fun r => r.stripeSubscriptionId == s.id) =
      some ⟨uidOpt, s.id, s.priceId, s.status, s.currentPeriodStart,
        s.currentPeriodEnd, s.trialStart, s.trialEnd, s.cancelAt,
        s.cancelAtPeriodEnd, s.canceledAt⟩ := by
  unfold createOrUpdateSubscription
  rw [if_neg (by simp [h])]
  rw [find?_append_of_none _ _ _ (find?_eq_none_of_any_eq_false _ _ h)]
  simp

/-- Upsert, update branch: the row found afterwards is the refreshed form
of the row found before (in particular its `user_id` is untouched). -/
theorem createOrUpdateSubscription_update (uidOpt : Option Nat) (s : StripeSub)
    (db : DB) (r : SubscriptionRow)
    (h : db.subscriptions.find? (fun r => r.stripeSubscriptionId == s.id) = some r) :
    (createOrUpdateSubscription uidOpt s db).subscriptions.find?
        (fun r => r.stripeSubscriptionId == s.id) =
      some (refreshSubscriptionRow r s) := by
  have hany : db.subscriptions.any (fun r => r.stripeSubscriptionId == s.id) = true := by
    have := List.find?_some h
    have hmem := List.mem_of_find?_eq_some h
    exact List.any_eq_true.mpr ⟨r, hmem, this⟩
  unfold createOrUpdateSubscription
  rw [if_pos (by simp [hany])]
  show (db.subscriptions.map fun r =>
      if r.stripeSubscriptionId == s.id then refreshSubscriptionRow r s else r).find?
      (fun r => r.stripeSubscriptionId == s.id) = _
  rw [find?_map_update _ _ (fun a ha => by
    simpa [refreshSubscriptionRow_id] using ha), h]
  rfl

/-- After `moveToGracePeriod`, the user's grace row exists and its
`grace_period_ends_at` is `now + 7 days`. -/
theorem moveToGracePeriod_find (now : Int) (db : DB) (uid : Nat) (did : String) :
    ∃ g, (moveToGracePeriod now db uid did).gracePeriod.find?
        (fun g => g.userId == uid) = some g ∧
      g.userId = uid ∧ g.gracePeriodEndsAt = now + gracePeriodSeconds := by
  unfold moveToGracePeriod
  by_cases h : db.gracePeriod.any (fun g => g.userId == uid)
  · rw [if_pos h]
    obtain ⟨g0, hg0, hp⟩ := List.any_eq_true.mp h
    obtain ⟨g1, hfind⟩ : ∃ g1, db.gracePeriod.find?
        (fun g => g.userId == uid) = some g1 := by
      cases hf : db.gracePeriod.find? (fun g => g.userId == uid) with
      | none =>
        rw [List.find?_eq_none] at hf
        exact absurd hp (hf g0 hg0)
      | some g1 => exact ⟨g1, rfl⟩
    refine ⟨{ g1 with gracePeriodEndsAt := now + gracePeriodSeconds }, ?_, ?_, rfl⟩
    · show (db.gracePeriod.map fun g =>
          if g.userId == uid then { g with gracePeriodEndsAt := now + gracePeriodSeconds }
          else g).find? (fun g => g.userId == uid) = _
      rw [find?_map_update _ _ (fun a ha => by simpa using ha), hfind]
      rfl
    · have := List.find?_some hfind
      simpa using this
  · rw [if_neg h]
    refine ⟨⟨uid, did, now + gracePeriodSeconds, true⟩, ?_, rfl, rfl⟩
    rw [find?_append_of_none _ _ _
      (find?_eq_none_of_any_eq_false _ _ (by simpa using h))]
    simp

/-- The user resolved by the join after the cancel path's two upserts is
the member found by customer id, provided the subscription id is fresh and
the member's id lookup is consistent. -/
theorem findUserBySubscriptionJoin_after_cancel_upserts (s : StripeSub)
    (db : DB) (u : User) (hid : findUserById db u.id = some u)
    (hnew : db.subscriptions.any (fun r => r.stripeSubscriptionId == s.id) = false) :
    findUserBySubscriptionJoin
      (createOrUpdateSubscription none s
        (createOrUpdateSubscription (some u.id) s db)) s.id = some u := by
  unfold findUserBySubscriptionJoin
  rw [createOrUpdateSubscription_update none s _ _
    (createOrUpdateSubscription_insert (some u.id) s db hnew)]
  show findUserById
    (createOrUpdateSubscription none s
      (createOrUpdateSubscription (some u.id) s db)) u.id = some u
  unfold findUserById
  rw [createOrUpdateSubscription_users, createOrUpdateSubscription_users]
  exact hid

/-- C3, corrected.  Processing `customer.subscription.deleted` for a
member creates or updates the GracePeriodEntry with `graceEndsAt = now +
7 days` and issues no role mutation, but it does not transition the
member's tier: the `users` relation — including the `tier` column — is
left exactly as it was. -/
theorem C3_cancel_creates_grace_entry_without_tier_transition (env : Env)
    (eid : String) (s : StripeSub) (db : DB) (u : User)
    (hu : findUserByCustomer db s.customer = some u)
    (hid : findUserById db u.id = some u)
    (hnew : db.subscriptions.any (fun r => r.stripeSubscriptionId == s.id) = false) :
    (handleSubscriptionDeleted env eid s db).users = db.users ∧
    (handleSubscriptionDeleted env eid s db).roleCalls = db.roleCalls ∧
    (∃ g, (handleSubscriptionDeleted env eid s db).gracePeriod.find?
        (fun g => g.userId == u.id) = some g ∧
      g.gracePeriodEndsAt = env.now + gracePeriodSeconds) := by
  have hjoin := findUserBySubscriptionJoin_after_cancel_upserts s db u hid hnew
  have hcanc : handleSubscriptionCanceled env s
      (createOrUpdateSubscription (some u.id) s db) =
      (logEvent (moveToGracePeriod env.now
          (createOrUpdateSubscription none s
            (createOrUpdateSubscription (some u.id) s db)) u.id u.discordId)
        (some u.id) "subscription.canceled" "success", true) := by
    simp only [handleSubscriptionCanceled, hjoin]
  have hmain : handleSubscriptionDeleted env eid s db =
      logStripeEvent (logEvent (moveToGracePeriod env.now
          (createOrUpdateSubscription none s
            (createOrUpdateSubscription (some u.id) s db)) u.id u.discordId)
        (some u.id) "subscription.canceled" "success")
        eid "subscription.deleted" (some u.id) := by
    simp only [handleSubscriptionDeleted, hu, hcanc, if_true]
  refine ⟨?_, ?_, ?_⟩
  · rw [hmain]; simp
  · rw [hmain]; simp
  · rw [hmain]
    obtain ⟨g, hg, _, hge⟩ := moveToGracePeriod_find env.now
      (createOrUpdateSubscription none s
        (createOrUpdateSubscription (some u.id) s db)) u.id u.discordId
    exact ⟨g, by simpa using hg, hge⟩

/-- C3 counterexample: ingesting `customer.subscription.deleted` for a
paid member creates the 7-day grace entry but leaves the tier at "paid" —
the claimed paid→grace tier transition does not happen. -/
theorem C3_counterexample :
    ((ingest ⟨0, fun _ => [], fun _ => none, true⟩ "evt_3"
        (.subscriptionDeleted ⟨"sub_1", "cus_1", "canceled", 0, 100, none,
          none, none, false, some 50, some "price_1"⟩)
        ⟨[⟨1, "d1", some "cus_1", "paid", some 100, none⟩],
         [⟨some 1, "sub_1", some "price_1", "active", 0, 100, none, none,
           none, false, none⟩], [], [], [], []⟩).1.users.map User.tier)
      = ["paid"] ∧
    (ingest ⟨0, fun _ => [], fun _ => none, true⟩ "evt_3"
        (.subscriptionDeleted ⟨"sub_1", "cus_1", "canceled", 0, 100, none,
          none, none, false, some 50, some "price_1"⟩)
        ⟨[⟨1, "d1", some "cus_1", "paid", some 100, none⟩],
         [⟨some 1, "sub_1", some "price_1", "active", 0, 100, none, none,
           none, false, none⟩], [], [], [], []⟩).1.gracePeriod
      = [⟨1, "d1", 604800, true⟩] :=
  ⟨rfl, rfl⟩

/-- Witness for the corrected C3 at a concrete paid member. -/
theorem C3_witness :
    (handleSubscriptionDeleted ⟨0, fun _ => [], fun _ => none, true⟩ "evt_3"
        ⟨"sub_2", "cus_1", "canceled", 0, 100, none, none, none, false,
          some 50, some "price_1"⟩
        ⟨[⟨1, "d1", some "cus_1", "paid", some 100, none⟩], [], [], [], [],
          []⟩).users = [⟨1, "d1", some "cus_1", "paid", some 100, none⟩] ∧
    (handleSubscriptionDeleted ⟨0, fun _ => [], fun _ => none, true⟩ "evt_3"
        ⟨"sub_2", "cus_1", "canceled", 0, 100, none, none, none, false,
          some 50, some "price_1"⟩
        ⟨[⟨1, "d1", some "cus_1", "paid", some 100, none⟩], [], [], [], [],
          []⟩).roleCalls = [] ∧
    (∃ g, (handleSubscriptionDeleted ⟨0, fun _ => [], fun _ => none, true⟩
        "evt_3"
        ⟨"sub_2", "cus_1", "canceled", 0, 100, none, none, none, false,
          some 50, some "price_1"⟩
        ⟨[⟨1, "d1", some "cus_1", "paid", some 100, none⟩], [], [], [], [],
          []⟩).gracePeriod.find? (fun g => g.userId == 1) = some g ∧
      g.gracePeriodEndsAt = 0 + gracePeriodSeconds) :=
  C3_cancel_creates_grace_entry_without_tier_transition
    ⟨0, fun _ => [], fun _ => none, true⟩ "evt_3"
    ⟨"sub_2", "cus_1", "canceled", 0, 100, none, none, none, false, some 50,
      some "price_1"⟩
    ⟨[⟨1, "d1", some "cus_1", "paid", some 100, none⟩], [], [], [], [], []⟩
    ⟨1, "d1", some "cus_1", "paid", some 100, none⟩ rfl rfl rfl

/-- C10: for a `customer.subscription.updated` event whose payload lacks
`previous_attributes.status`, or whose new status is neither "active" nor
"past_due" (e.g. "canceled" or "unpaid"), processing only refreshes the
subscription row (and appends an audit row): the member rows, the grace
entries and the role calls are all left unchanged. -/
theorem C10_updated_event_frame (env : Env) (eid : String) (s : StripeSub)
    (previousStatus : Option String) (db : DB) (u : User)
    (hu : findUserByCustomer db s.customer = some u)
    (hcond : previousStatus = none ∨ (s.status ≠ "active" ∧ s.status ≠ "past_due")) :
    (handleSubscriptionUpdated env eid s previousStatus db).users = db.users ∧
    (handleSubscriptionUpdated env eid s previousStatus db).gracePeriod =
      db.gracePeriod ∧
    (handleSubscriptionUpdated env eid s previousStatus db).roleCalls =
      db.roleCalls ∧
    (handleSubscriptionUpdated env eid s previousStatus db).subscriptions =
      (createOrUpdateSubscription (some u.id) s db).subscriptions := by
  rcases hcond with rfl | ⟨h1, h2⟩
  · simp only [handleSubscriptionUpdated, hu]
    exact ⟨by simp, by simp, by simp, by simp⟩
  · have ha : (s.status == "active") = false := by simpa using h1
    have hp : (s.status == "past_due") = false := by simpa using h2
    cases previousStatus with
    | none =>
      simp only [handleSubscriptionUpdated, hu]
      exact ⟨by simp, by simp, by simp, by simp⟩
    | some oldStatus =>
      simp only [handleSubscriptionUpdated, hu, ha, hp, Bool.false_eq_true,
        if_false, ite_self]
      exact ⟨by simp, by simp, by simp, by simp⟩

/-- Witness for C10: an update to status "canceled" (previous status
"active") touches only the subscription row. -/
theorem C10_witness :
    (handleSubscriptionUpdated ⟨0, fun _ => [], fun _ => none, true⟩ "evt_u"
        ⟨"sub_1", "cus_1", "canceled", 0, 100, none, none, none, false,
          some 50, some "price_1"⟩ (some "active")
        ⟨[⟨1, "d1", some "cus_1", "paid", some 100, none⟩],
         [⟨some 1, "sub_1", some "price_1", "active", 0, 100, none, none,
           none, false, none⟩], [], [], [], []⟩).users =
      [⟨1, "d1", some "cus_1", "paid", some 100, none⟩] ∧
    (handleSubscriptionUpdated ⟨0, fun _ => [], fun _ => none, true⟩ "evt_u"
        ⟨"sub_1", "cus_1", "canceled", 0, 100, none, none, none, false,
          some 50, some "price_1"⟩ (some "active")
        ⟨[⟨1, "d1", some "cus_1", "paid", some 100, none⟩],
         [⟨some 1, "sub_1", some "price_1", "active", 0, 100, none, none,
           none, false, none⟩], [], [], [], []⟩).gracePeriod = [] ∧
    (handleSubscriptionUpdated ⟨0, fun _ => [], fun _ => none, true⟩ "evt_u"
        ⟨"sub_1", "cus_1", "canceled", 0, 100, none, none, none, false,
          some 50, some "price_1"⟩ (some "active")
        ⟨[⟨1, "d1", some "cus_1", "paid", some 100, none⟩],
         [⟨some 1, "sub_1", some "price_1", "active", 0, 100, none, none,
           none, false, none⟩], [], [], [], []⟩).roleCalls = [] ∧
    (handleSubscriptionUpdated ⟨0, fun _ => [], fun _ => none, true⟩ "evt_u"
        ⟨"sub_1", "cus_1", "canceled", 0, 100, none, none, none, false,
          some 50, some "price_1"⟩ (some "active")
        ⟨[⟨1, "d1", some "cus_1", "paid", some 100, none⟩],
         [⟨some 1, "sub_1", some "price_1", "active", 0, 100, none, none,
           none, false, none⟩], [], [], [], []⟩).subscriptions =
      (createOrUpdateSubscription (some 1)
        ⟨"sub_1", "cus_1", "canceled", 0, 100, none, none, none, false,
          some 50, some "price_1"⟩
        ⟨[⟨1, "d1", some "cus_1", "paid", some 100, none⟩],
         [⟨some 1, "sub_1", some "price_1", "active", 0, 100, none, none,
           none, false, none⟩], [], [], [], []⟩).subscriptions :=
  C10_updated_event_frame ⟨0, fun _ => [], fun _ => none, true⟩ "evt_u"
    ⟨"sub_1", "cus_1", "canceled", 0, 100, none, none, none, false, some 50,
      some "price_1"⟩ (some "active")
    ⟨[⟨1, "d1", some "cus_1", "paid", some 100, none⟩],
     [⟨some 1, "sub_1", some "price_1", "active", 0, 100, none, none, none,
       false, none⟩], [], [], [], []⟩
    ⟨1, "d1", some "cus_1", "paid", some 100, none⟩ rfl
    (Or.inr ⟨by decide, by decide⟩)

/-- C7, corrected.  `invoice.payment_succeeded` (renew) upserts the
SubscriptionRecord and re-issues the role grant but does not write the
member's tier; delivering it before the activate event
(`customer.subscription.created` with status active) still ends with
tier=paid, because the activate handler persists the tier. -/
theorem C7_renew_no_tier_persist_but_order_tolerant (env : Env)
    (eid1 eid2 : String) (s : StripeSub) (db : DB) (u : User)
    (hu : findUserByCustomer db s.customer = some u)
    (hid : findUserById db u.id = some u)
    (hget : env.getSubscription s.id = some s)
    (hst : s.status = "active")
    (hnew : db.subscriptions.any (fun r => r.stripeSubscriptionId == s.id) = false) :
    (handleInvoicePaymentSucceeded env eid1 s.customer (some s.id) db).users =
      db.users ∧
    (handleInvoicePaymentSucceeded env eid1 s.customer (some s.id) db).roleCalls =
      db.roleCalls ++ [⟨u.discordId, true, env.roleSyncOk⟩] ∧
    (handleInvoicePaymentSucceeded env eid1 s.customer (some s.id)
        db).subscriptions.find? (fun r => r.stripeSubscriptionId == s.id) =
      some ⟨some u.id, s.id, s.priceId, s.status, s.currentPeriodStart,
        s.currentPeriodEnd, s.trialStart, s.trialEnd, s.cancelAt,
        s.cancelAtPeriodEnd, s.canceledAt⟩ ∧
    (∀ v ∈ (handleSubscriptionCreated env eid2 s
        (handleInvoicePaymentSucceeded env eid1 s.customer (some s.id)
          db)).users, v.id = u.id → v.tier = "paid") := by
  have hmain1 : handleInvoicePaymentSucceeded env eid1 s.customer (some s.id) db =
      logStripeEvent (syncRoles env (createOrUpdateSubscription (some u.id) s db)
        u.discordId true) eid1 "invoice.payment_succeeded" (some u.id) := by
    simp only [handleInvoicePaymentSucceeded, hu, hget]
  have husers1 : (handleInvoicePaymentSucceeded env eid1 s.customer
      (some s.id) db).users = db.users := by
    rw [hmain1]; simp
  have hsubs1 : (handleInvoicePaymentSucceeded env eid1 s.customer
      (some s.id) db).subscriptions =
      (createOrUpdateSubscription (some u.id) s db).subscriptions := by
    rw [hmain1]; simp
  have hroles1 : (handleInvoicePaymentSucceeded env eid1 s.customer
      (some s.id) db).roleCalls =
      db.roleCalls ++ [⟨u.discordId, true, env.roleSyncOk⟩] := by
    rw [hmain1]; simp [syncRoles]
  have hrow1 : (handleInvoicePaymentSucceeded env eid1 s.customer
      (some s.id) db).subscriptions.find?
        (fun r => r.stripeSubscriptionId == s.id) =
      some ⟨some u.id, s.id, s.priceId, s.status, s.currentPeriodStart,
        s.currentPeriodEnd, s.trialStart, s.trialEnd, s.cancelAt,
        s.cancelAtPeriodEnd, s.canceledAt⟩ := by
    rw [hsubs1]
    exact createOrUpdateSubscription_insert (some u.id) s db hnew
  refine ⟨husers1, hroles1, hrow1, ?_⟩
  set db1 := handleInvoicePaymentSucceeded env eid1 s.customer (some s.id) db
    with hdb1
  have hu1 : findUserByCustomer db1 s.customer = some u := by
    unfold findUserByCustomer at hu ⊢
    rw [husers1]
    exact hu
  have hrow2 := createOrUpdateSubscription_update (some u.id) s db1 _ hrow1
  have hrow3 := createOrUpdateSubscription_update none s
    (createOrUpdateSubscription (some u.id) s db1) _ hrow2
  have hjoin : findUserBySubscriptionJoin
      (createOrUpdateSubscription none s
        (createOrUpdateSubscription (some u.id) s db1)) s.id = some u := by
    unfold findUserBySubscriptionJoin
    rw [hrow3]
    show findUserById (createOrUpdateSubscription none s
      (createOrUpdateSubscription (some u.id) s db1)) u.id = some u
    unfold findUserById
    rw [createOrUpdateSubscription_users, createOrUpdateSubscription_users,
      husers1]
    exact hid
  have hact : handleSubscriptionActive env s
      (createOrUpdateSubscription (some u.id) s db1) =
      (logEvent (removeFromGracePeriod (syncRoles env (updateUser
          (createOrUpdateSubscription none s
            (createOrUpdateSubscription (some u.id) s db1))
          u.id (fun x => { x with tier := "paid" })) u.discordId true) u.id)
        (some u.id) "subscription.activated" "success", true) := by
    simp only [handleSubscriptionActive, hjoin]
  have hcreated : handleSubscriptionCreated env eid2 s db1 =
      logStripeEvent (logEvent (removeFromGracePeriod (syncRoles env
          (updateUser (createOrUpdateSubscription none s
            (createOrUpdateSubscription (some u.id) s db1))
          u.id (fun x => { x with tier := "paid" })) u.discordId true) u.id)
          (some u.id) "subscription.activated" "success")
        eid2 "subscription.created" (some u.id) := by
    simp only [handleSubscriptionCreated, hu1, hst, hact, if_true]
    simp
  intro v hv hvid
  rw [hcreated] at hv
  simp only [logStripeEvent_users, logEvent_users, removeFromGracePeriod_users,
    syncRoles_users, updateUser, List.mem_map] at hv
  obtain ⟨w, _, rfl⟩ := hv
  by_cases h : w.id == u.id
  · simp [h]
  · simp only [h, if_false, Bool.false_eq_true] at hvid ⊢
    exact absurd (by simpa using hvid) (by simpa using h)

/-- C7 counterexample: for a member with tier free, ingesting
`invoice.payment_succeeded` (the renew intent) upserts the subscription
record and attempts the role grant, but the member's tier remains "free"
— the claim's "persists the member's tier as paid" fails on this event. -/
theorem C7_counterexample :
    ((ingest ⟨0, fun _ => [], fun i => if i == "sub_1" then
          some ⟨"sub_1", "cus_1", "active", 0, 100, none, none, none, false,
            none, some "price_1"⟩ else none, true⟩ "evt_a"
        (.invoicePaymentSucceeded "cus_1" (some "sub_1"))
        ⟨[⟨1, "d1", some "cus_1", "free", none, none⟩], [], [], [], [],
          []⟩).1.users.map User.tier) = ["free"] ∧
    (ingest ⟨0, fun _ => [], fun i => if i == "sub_1" then
          some ⟨"sub_1", "cus_1", "active", 0, 100, none, none, none, false,
            none, some "price_1"⟩ else none, true⟩ "evt_a"
        (.invoicePaymentSucceeded "cus_1" (some "sub_1"))
        ⟨[⟨1, "d1", some "cus_1", "free", none, none⟩], [], [], [], [],
          []⟩).1.subscriptions =
      [⟨some 1, "sub_1", some "price_1", "active", 0, 100, none, none, none,
        false, none⟩] ∧
    (ingest ⟨0, fun _ => [], fun i => if i == "sub_1" then
          some ⟨"sub_1", "cus_1", "active", 0, 100, none, none, none, false,
            none, some "price_1"⟩ else none, true⟩ "evt_a"
        (.invoicePaymentSucceeded "cus_1" (some "sub_1"))
        ⟨[⟨1, "d1", some "cus_1", "free", none, none⟩], [], [], [], [],
          []⟩).1.roleCalls = [⟨"d1", true, true⟩] :=
  ⟨rfl, rfl, rfl⟩

/-- Witness for the corrected C7: renew then activate, starting from a
free member, ends with the member's row at tier paid. -/
theorem C7_witness :
    (⟨1, "d1", some "cus_1", "paid", none, none⟩ : User) ∈
      (handleSubscriptionCreated
        ⟨0, fun _ => [], fun i => if i == "sub_1" then
          some ⟨"sub_1", "cus_1", "active", 0, 100, none, none, none, false,
            none, some "price_1"⟩ else none, true⟩ "evt_b"
        ⟨"sub_1", "cus_1", "active", 0, 100, none, none, none, false, none,
          some "price_1"⟩
        (handleInvoicePaymentSucceeded
          ⟨0, fun _ => [], fun i => if i == "sub_1" then
            some ⟨"sub_1", "cus_1", "active", 0, 100, none, none, none,
              false, none, some "price_1"⟩ else none, true⟩ "evt_a"
          "cus_1" (some "sub_1")
          ⟨[⟨1, "d1", some "cus_1", "free", none, none⟩], [], [], [], [],
            []⟩)).users ∧
    (⟨1, "d1", some "cus_1", "paid", none, none⟩ : User).tier = "paid" :=
  ⟨by decide,
    (C7_renew_no_tier_persist_but_order_tolerant
      ⟨0, fun _ => [], fun i => if i == "sub_1" then
        some ⟨"sub_1", "cus_1", "active", 0, 100, none, none, none, false,
          none, some "price_1"⟩ else none, true⟩ "evt_a" "evt_b"
      ⟨"sub_1", "cus_1", "active", 0, 100, none, none, none, false, none,
        some "price_1"⟩
      ⟨[⟨1, "d1", some "cus_1", "free", none, none⟩], [], [], [], [], []⟩
      ⟨1, "d1", some "cus_1", "free", none, none⟩ rfl rfl rfl rfl rfl).2.2.2
      ⟨1, "d1", some "cus_1", "paid", none, none⟩ (by decide) rfl⟩

/-! ## Sweep lemmas -/

theorem foldl_const {α β : Type} :
    ∀ (l : List β) (a : α), l.foldl (fun acc _ => acc) a = a := by
  intro l
  induction l with
  | nil => intro a; rfl
  | cons b t ih => intro a; exact ih a

/-- Step 1 of the sweep is a per-row no-op (the `startGracePeriod` call
fails, see `startGracePeriodExport`), so the whole sweep reduces to the
grace-expiry fold of step 2. -/
theorem performDailySync_eq (now : Int) (db : DB) :
    performDailySync now db =
      (sweepGraceExpiredSelection now db).foldl (fun acc u =>
        updateUser acc u.id (fun v =>
          { v with tier := "free", gracePeriodEndDate := none })) db := by
  unfold performDailySync
  simp only [startGracePeriodExport]
  rw [foldl_const]

theorem sweepStep2_fold_roleCalls :
    ∀ (l : List User) (db : DB),
      (l.foldl (fun acc u => updateUser acc u.id (fun v =>
        { v with tier := "free", gracePeriodEndDate := none })) db).roleCalls =
      db.roleCalls := by
  intro l
  induction l with
  | nil => intro db; rfl
  | cons w t ih => intro db; rw [List.foldl_cons, ih]; rfl

theorem sweepStep2_fold_gracePeriod :
    ∀ (l : List User) (db : DB),
      (l.foldl (fun acc u => updateUser acc u.id (fun v =>
        { v with tier := "free", gracePeriodEndDate := none })) db).gracePeriod =
      db.gracePeriod := by
  intro l
  induction l with
  | nil => intro db; rfl
  | cons w t ih => intro db; rw [List.foldl_cons, ih]; rfl

theorem sweepStep2_fold_frees :
    ∀ (l : List User) (db : DB) (u : User), u ∈ l →
      ∀ v ∈ (l.foldl (fun acc w => updateUser acc w.id (fun x =>
          { x with tier := "free", gracePeriodEndDate := none })) db).users,
        v.id = u.id → v.tier = "free" ∧ v.gracePeriodEndDate = none := by
  have hstep : ∀ (db : DB) (b uid : Nat),
      (∀ v ∈ db.users, v.id = uid →
        v.tier = "free" ∧ v.gracePeriodEndDate = none) →
      ∀ v ∈ (updateUser db b (fun x =>
          { x with tier := "free", gracePeriodEndDate := none })).users,
        v.id = uid → v.tier = "free" ∧ v.gracePeriodEndDate = none := by
    intro db b uid h v hv hvid
    simp only [updateUser, List.mem_map] at hv
    obtain ⟨w, hw, rfl⟩ := hv
    by_cases hb : w.id == b
    · simp [hb]
    · simp only [hb, Bool.false_eq_true, if_false] at hvid ⊢
      exact h w hw hvid
  have hfold : ∀ (l : List User) (db : DB) (uid : Nat),
      (∀ v ∈ db.users, v.id = uid →
        v.tier = "free" ∧ v.gracePeriodEndDate = none) →
      ∀ v ∈ (l.foldl (fun acc w => updateUser acc w.id (fun x =>
          { x with tier := "free", gracePeriodEndDate := none })) db).users,
        v.id = uid → v.tier = "free" ∧ v.gracePeriodEndDate = none := by
    intro l
    induction l with
    | nil => intro db uid h; simpa using h
    | cons w t ih => intro db uid h; exact ih _ uid (hstep db w.id uid h)
  intro l
  induction l with
  | nil => intro db u hu; simp at hu
  | cons w t ih =>
    intro db u hu v hv hvid
    rcases List.mem_cons.mp hu with rfl | hu2
    · have hest : ∀ x ∈ (updateUser db u.id (fun x =>
          { x with tier := "free", gracePeriodEndDate := none })).users,
          x.id = u.id → x.tier = "free" ∧ x.gracePeriodEndDate = none := by
        intro x hx hxid
        simp only [updateUser, List.mem_map] at hx
        obtain ⟨y, _, rfl⟩ := hx
        by_cases hb : y.id == u.id
        · simp [hb]
        · simp only [hb, Bool.false_eq_true, if_false] at hxid ⊢
          exact absurd (by simpa using hxid) (by simpa using hb)
      exact hfold t _ u.id hest v hv hvid
    · exact ih _ u hu2 v hv hvid

/-- C2, code bug.  A member with tier paid and an expired
`subscription_end_date` is selected by step 1 of the daily sweep, but the
sweep leaves the entire store unchanged: `performDailySync` calls
`gracePeriodService.startGracePeriod`, which the grace period service does
not export, so every row's processing raises a TypeError that the per-row
catch swallows.  No tier=grace transition, no grace entry and no role
change happen. -/
theorem C2_sweep_expired_paid_member_unchanged :
    sweepExpiredSelection 0
        ⟨[⟨1, "d1", some "cus_1", "paid", some (-100), none⟩], [], [], [],
          [], []⟩ =
      [⟨1, "d1", some "cus_1", "paid", some (-100), none⟩] ∧
    startGracePeriodExport = none ∧
    performDailySync 0
        ⟨[⟨1, "d1", some "cus_1", "paid", some (-100), none⟩], [], [], [],
          [], []⟩ =
      ⟨[⟨1, "d1", some "cus_1", "paid", some (-100), none⟩], [], [], [], [],
        []⟩ :=
  ⟨rfl, rfl, rfl⟩

/-- C4, corrected.  For every member in the sweep's step 2 selection
(tier grace, grace date due; bounded to 1000 rows), the sweep persists
tier=free and clears the member's `grace_period_end_date`; but it makes no
role-sync call (role removal is left to the external RoleBot, which polls
the list endpoints) and it does not delete the member's `grace_period`
table row. -/
theorem C4_sweep_grace_expiry_no_revoke (now : Int) (db : DB) (u : User)
    (hu : u ∈ sweepGraceExpiredSelection now db) :
    (∀ v ∈ (performDailySync now db).users, v.id = u.id →
      v.tier = "free" ∧ v.gracePeriodEndDate = none) ∧
    (performDailySync now db).roleCalls = db.roleCalls ∧
    (performDailySync now db).gracePeriod = db.gracePeriod := by
  rw [performDailySync_eq]
  exact ⟨fun v hv hvid => sweepStep2_fold_frees _ db u hu v hv hvid,
    sweepStep2_fold_roleCalls _ db, sweepStep2_fold_gracePeriod _ db⟩

/-- C4 counterexample: a member with expired grace is transitioned to
free, but no revoke-role intent is issued (no role call is recorded) and
the grace_period row survives — against the claim's revoke-role and
entry-removal parts. -/
theorem C4_counterexample :
    sweepGraceExpiredSelection 0
        ⟨[⟨2, "d2", some "cus_2", "grace", none, some (-5)⟩], [],
          [⟨2, "d2", -5, true⟩], [], [], [⟨"keep", false, true⟩]⟩ =
      [⟨2, "d2", some "cus_2", "grace", none, some (-5)⟩] ∧
    performDailySync 0
        ⟨[⟨2, "d2", some "cus_2", "grace", none, some (-5)⟩], [],
          [⟨2, "d2", -5, true⟩], [], [], [⟨"keep", false, true⟩]⟩ =
      ⟨[⟨2, "d2", some "cus_2", "free", none, none⟩], [],
        [⟨2, "d2", -5, true⟩], [], [], [⟨"keep", false, true⟩]⟩ :=
  ⟨rfl, rfl⟩

/-- Witness for the corrected C4 at a concrete expired-grace member. -/
theorem C4_witness :
    (∀ v ∈ (performDailySync 0
        ⟨[⟨2, "d2", some "cus_2", "grace", none, some (-5)⟩], [],
          [⟨2, "d2", -5, true⟩], [], [], []⟩).users, v.id = 2 →
      v.tier = "free" ∧ v.gracePeriodEndDate = none) ∧
    (performDailySync 0
        ⟨[⟨2, "d2", some "cus_2", "grace", none, some (-5)⟩], [],
          [⟨2, "d2", -5, true⟩], [], [], []⟩).roleCalls = [] ∧
    (performDailySync 0
        ⟨[⟨2, "d2", some "cus_2", "grace", none, some (-5)⟩], [],
          [⟨2, "d2", -5, true⟩], [], [], []⟩).gracePeriod =
      [⟨2, "d2", -5, true⟩] :=
  C4_sweep_grace_expiry_no_revoke 0
    ⟨[⟨2, "d2", some "cus_2", "grace", none, some (-5)⟩], [],
      [⟨2, "d2", -5, true⟩], [], [], []⟩
    ⟨2, "d2", some "cus_2", "grace", none, some (-5)⟩ (by decide)

/-! ## Tier validity preservation (towards C5) -/

theorem tierValid_of_users_eq {db db' : DB} (h : db'.users = db.users) :
    tierValid db → tierValid db' := by
  intro ht u hu
  exact ht u (h ▸ hu)

theorem tierValid_updateUser (db : DB) (uid : Nat) (f : User → User)
    (hf : ∀ v, validTier v.tier → validTier (f v).tier)
    (h : tierValid db) : tierValid (updateUser db uid f) := by
  intro v hv
  simp only [updateUser, List.mem_map] at hv
  obtain ⟨w, hw, rfl⟩ := hv
  by_cases hb : w.id == uid
  · simp only [hb, if_true]
    exact hf w (h w hw)
  · simp only [hb, Bool.false_eq_true, if_false]
    exact h w hw

theorem handleSubscriptionCanceled_users (env : Env) (s : StripeSub) (db : DB) :
    (handleSubscriptionCanceled env s db).1.users = db.users := by
  cases hj : findUserBySubscriptionJoin (createOrUpdateSubscription none s db) s.id with
  | none => simp [handleSubscriptionCanceled, hj]
  | some u => simp [handleSubscriptionCanceled, hj]

theorem handleSubscriptionPastDue_users (s : StripeSub) (db : DB) :
    (handleSubscriptionPastDue s db).1.users = db.users := by
  cases hj : findUserBySubscriptionJoin (createOrUpdateSubscription none s db) s.id with
  | none => simp [handleSubscriptionPastDue, hj]
  | some u => simp [handleSubscriptionPastDue, hj]

theorem handleInvoicePaymentSucceeded_users (env : Env) (eid c : String)
    (sub : Option String) (db : DB) :
    (handleInvoicePaymentSucceeded env eid c sub db).users = db.users := by
  unfold handleInvoicePaymentSucceeded
  (repeat' split) <;> simp

theorem handleInvoicePaymentFailed_users (eid c : String) (db : DB) :
    (handleInvoicePaymentFailed eid c db).users = db.users := by
  unfold handleInvoicePaymentFailed
  (repeat' split) <;> simp

theorem handleTrialWillEnd_users (eid : String) (s : StripeSub) (db : DB) :
    (handleTrialWillEnd eid s db).users = db.users := by
  unfold handleTrialWillEnd
  (repeat' split) <;> simp

theorem tierValid_handleSubscriptionActive (env : Env) (s : StripeSub)
    (db : DB) (h : tierValid db) :
    tierValid (handleSubscriptionActive env s db).1 := by
  cases hj : findUserBySubscriptionJoin
      (createOrUpdateSubscription none s db) s.id with
  | none =>
    simp only [handleSubscriptionActive, hj]
    exact tierValid_of_users_eq (by simp) h
  | some u =>
    simp only [handleSubscriptionActive, hj]
    refine @tierValid_of_users_eq (updateUser
      (createOrUpdateSubscription none s db) u.id
      (fun x => { x with tier := "paid" })) _ (by simp) ?_
    exact tierValid_updateUser _ _ _ (fun v _ => Or.inr (Or.inl rfl))
      (tierValid_of_users_eq (by simp) h)

theorem tierValid_handleCheckoutSessionCompleted (env : Env) (eid c : String)
    (muid : Option Nat) (db : DB) (h : tierValid db) :
    tierValid (handleCheckoutSessionCompleted env eid c muid db) := by
  have hbody : ∀ u : User,
      tierValid (match env.listSubscriptionsForCustomer c with
        | [] => updateUser db u.id (fun x => { x with stripeCustomerId := some c })
        | s :: _ =>
          logStripeEvent (syncRoles env (updateUser
            (createOrUpdateSubscription (some u.id) s
              (updateUser db u.id (fun x => { x with stripeCustomerId := some c })))
            u.id (fun x => { x with tier := "paid" })) u.discordId true)
            eid "checkout.session.completed" (some u.id)) := by
    intro u
    cases hl : env.listSubscriptionsForCustomer c with
    | nil =>
      exact tierValid_updateUser db u.id
        (fun x => { x with stripeCustomerId := some c }) (fun v hv => hv) h
    | cons s rest =>
      refine @tierValid_of_users_eq (updateUser
        (createOrUpdateSubscription (some u.id) s
          (updateUser db u.id (fun x => { x with stripeCustomerId := some c })))
        u.id (fun x => { x with tier := "paid" })) _ (by simp) ?_
      exact tierValid_updateUser _ u.id (fun x => { x with tier := "paid" })
        (fun v _ => Or.inr (Or.inl rfl))
        (tierValid_of_users_eq (by simp)
          (tierValid_updateUser db u.id
            (fun x => { x with stripeCustomerId := some c }) (fun v hv => hv) h))
  cases muid with
  | some uid =>
    cases hu : findUserById db uid with
    | none => simp only [handleCheckoutSessionCompleted, hu]; exact h
    | some u =>
      simp only [handleCheckoutSessionCompleted, hu]
      exact hbody u
  | none =>
    cases hu : findUserByCustomer db c with
    | none => simp only [handleCheckoutSessionCompleted, hu]; exact h
    | some u =>
      simp only [handleCheckoutSessionCompleted, hu]
      exact hbody u

theorem tierValid_handleSubscriptionCreated (env : Env) (eid : String)
    (s : StripeSub) (db : DB) (h : tierValid db) :
    tierValid (handleSubscriptionCreated env eid s db) := by
  cases hu : findUserByCustomer db s.customer with
  | none => simp only [handleSubscriptionCreated, hu]; exact h
  | some u =>
    simp only [handleSubscriptionCreated, hu]
    have hdb2 : tierValid (createOrUpdateSubscription (some u.id) s db) :=
      tierValid_of_users_eq (by simp) h
    by_cases hst : (s.status == "active" || s.status == "trialing") = true
    · rw [if_pos hst]
      have hres := tierValid_handleSubscriptionActive env s _ hdb2
      by_cases h2 : (handleSubscriptionActive env s
          (createOrUpdateSubscription (some u.id) s db)).2 = true
      · rw [if_pos h2]
        exact tierValid_of_users_eq (by simp) hres
      · rw [if_neg h2]
        exact hres
    · rw [if_neg hst]
      exact tierValid_of_users_eq (by simp) hdb2

theorem tierValid_handleSubscriptionUpdated (env : Env) (eid : String)
    (s : StripeSub) (prev : Option String) (db : DB) (h : tierValid db) :
    tierValid (handleSubscriptionUpdated env eid s prev db) := by
  cases hu : findUserByCustomer db s.customer with
  | none => simp only [handleSubscriptionUpdated, hu]; exact h
  | some u =>
    simp only [handleSubscriptionUpdated, hu]
    have hdb2 : tierValid (createOrUpdateSubscription (some u.id) s db) :=
      tierValid_of_users_eq (by simp) h
    have hres : ∀ res : DB × Bool, tierValid res.1 →
        tierValid (if res.2 then
          logStripeEvent res.1 eid "subscription.updated" (some u.id)
          else res.1) := by
      intro res hr
      by_cases h2 : res.2 = true
      · rw [if_pos h2]; exact tierValid_of_users_eq (by simp) hr
      · rw [if_neg h2]; exact hr
    cases prev with
    | none => exact hres _ hdb2
    | some old =>
      apply hres
      show tierValid (if (old != s.status) = true then
          (if (s.status == "active") = true then
            handleSubscriptionActive env s (createOrUpdateSubscription (some u.id) s db)
          else if (s.status == "past_due") = true then
            handleSubscriptionPastDue s (createOrUpdateSubscription (some u.id) s db)
          else (createOrUpdateSubscription (some u.id) s db, true))
        else (createOrUpdateSubscription (some u.id) s db, true)).1
      by_cases hneq : (old != s.status) = true
      · rw [if_pos hneq]
        by_cases hact : (s.status == "active") = true
        · rw [if_pos hact]
          exact tierValid_handleSubscriptionActive env s _ hdb2
        · rw [if_neg hact]
          by_cases hpd : (s.status == "past_due") = true
          · rw [if_pos hpd]
            exact tierValid_of_users_eq (handleSubscriptionPastDue_users s _) hdb2
          · rw [if_neg hpd]
            exact hdb2
      · rw [if_neg hneq]
        exact hdb2

theorem tierValid_handleSubscriptionDeleted (env : Env) (eid : String)
    (s : StripeSub) (db : DB) (h : tierValid db) :
    tierValid (handleSubscriptionDeleted env eid s db) := by
  cases hu : findUserByCustomer db s.customer with
  | none => simp only [handleSubscriptionDeleted, hu]; exact h
  | some u =>
    simp only [handleSubscriptionDeleted, hu]
    have hdb2 : tierValid (createOrUpdateSubscription (some u.id) s db) :=
      tierValid_of_users_eq (by simp) h
    have hres : tierValid (handleSubscriptionCanceled env s
        (createOrUpdateSubscription (some u.id) s db)).1 :=
      tierValid_of_users_eq (handleSubscriptionCanceled_users env s _) hdb2
    by_cases h2 : (handleSubscriptionCanceled env s
        (createOrUpdateSubscription (some u.id) s db)).2 = true
    · rw [if_pos h2]
      exact tierValid_of_users_eq (by simp) hres
    · rw [if_neg h2]
      exact hres

theorem tierValid_dispatchEvent (env : Env) (eid : String) (ev : StripeEvent)
    (db : DB) (h : tierValid db) :
    tierValid (dispatchEvent env eid ev db) := by
  cases ev with
  | checkoutSessionCompleted c muid =>
    exact tierValid_handleCheckoutSessionCompleted env eid c muid db h
  | subscriptionCreated s => exact tierValid_handleSubscriptionCreated env eid s db h
  | subscriptionUpdated s prev =>
    exact tierValid_handleSubscriptionUpdated env eid s prev db h
  | subscriptionDeleted s => exact tierValid_handleSubscriptionDeleted env eid s db h
  | invoicePaymentSucceeded c sub =>
    exact tierValid_of_users_eq (handleInvoicePaymentSucceeded_users env eid c sub db) h
  | invoicePaymentFailed c =>
    exact tierValid_of_users_eq (handleInvoicePaymentFailed_users eid c db) h
  | trialWillEnd s =>
    exact tierValid_of_users_eq (handleTrialWillEnd_users eid s db) h
  | unknownType => exact h

theorem tierValid_sweepFold :
    ∀ (l : List User) (db : DB), tierValid db →
      tierValid (l.foldl (fun acc w => updateUser acc w.id (fun x =>
        { x with tier := "free", gracePeriodEndDate := none })) db) := by
  intro l
  induction l with
  | nil => intro db h; exact h
  | cons w t ih =>
    intro db h
    exact ih _ (tierValid_updateUser _ _ _ (fun v _ => Or.inl rfl) h)

/-- C5, corrected (tier-validity part).  Both operations — webhook ingest
and the daily sweep — preserve that every member's tier is one of free,
paid, grace.  (The grace-entry-iff-grace half of the claimed invariant is
not preserved; see the counterexample.) -/
theorem C5_tier_validity_preserved (env : Env) (eid : String)
    (ev : StripeEvent) (now : Int) (db : DB) (h : tierValid db) :
    tierValid (ingest env eid ev db).1 ∧ tierValid (performDailySync now db) := by
  constructor
  · unfold ingest
    split
    · exact h
    · exact tierValid_of_users_eq (by simp)
        (tierValid_dispatchEvent env eid ev db h)
  · rw [performDailySync_eq]
    exact tierValid_sweepFold _ db h

/-- C5 counterexample: a store satisfying the full claimed invariant (a
paid member with no grace entry) stops satisfying it after one webhook
dispatch: `customer.subscription.deleted` creates a grace entry while the
tier stays paid, so "grace entry exists iff tier = grace" is violated. -/
theorem C5_counterexample :
    graceInvariant
      ⟨[⟨1, "d1", some "cus_1", "paid", some 100, none⟩],
       [⟨some 1, "sub_1", some "price_1", "active", 0, 100, none, none,
         none, false, none⟩], [], [], [], []⟩ ∧
    ¬ graceInvariant (ingest ⟨0, fun _ => [], fun _ => none, true⟩ "evt_3"
        (.subscriptionDeleted ⟨"sub_1", "cus_1", "canceled", 0, 100, none,
          none, none, false, some 50, some "price_1"⟩)
        ⟨[⟨1, "d1", some "cus_1", "paid", some 100, none⟩],
         [⟨some 1, "sub_1", some "price_1", "active", 0, 100, none, none,
           none, false, none⟩], [], [], [], []⟩).1 := by
  unfold graceInvariant validTier
  constructor
  · decide
  · decide

/-- Witness for the tier-validity half of C5 at a concrete store. -/
theorem C5_witness :
    tierValid (ingest ⟨0, fun _ => [], fun _ => none, true⟩ "evt_1"
      .unknownType
      ⟨[⟨1, "d1", some "cus_1", "paid", some 100, none⟩], [], [], [], [],
        []⟩).1 ∧
    tierValid (performDailySync 0
      ⟨[⟨1, "d1", some "cus_1", "paid", some 100, none⟩], [], [], [], [],
        []⟩) :=
  C5_tier_validity_preserved ⟨0, fun _ => [], fun _ => none, true⟩ "evt_1"
    .unknownType 0
    ⟨[⟨1, "d1", some "cus_1", "paid", some 100, none⟩], [], [], [], [], []⟩
    (fun u hu => by
      rcases List.mem_singleton.mp hu with rfl
      exact Or.inr (Or.inl rfl))

end Triboar
